import Mathlib

/-!
Verification development for the Lambda image-thumbnail generator
(src/lambda_function.py).  The Python source is shallowly embedded:
pure helpers become Lean functions; the S3/filesystem effects of
`lambda_handler` are modelled by an environment `Env` describing the
behaviour of the external collaborators (S3 head/download/upload, the
uuid token, the scratch directory) and by an explicit trace of the
operations the handler performs.
-/

namespace Thumb

/-! ### String helpers (Python stdlib behaviour used by the source) -/

/-- Last index of character `c` in `cs`, as an `Int`; `-1` when absent
(mirrors Python `str.rfind`). -/
def lastIdx (cs : List Char) (c : Char) : Int :=
  match (cs.reverse).indexOf? c with
  | none => -1
  | some i => ((cs.length - 1 - i : Nat) : Int)

/-- Model of Python `os.path.splitext`: split at the last dot of the last
path component, provided some non-dot character precedes that dot within
the component (so dotfiles such as `.bashrc` have no extension). -/
def splitext (s : String) : String × String :=
  let cs := s.data
  let sep := lastIdx cs '/'
  let dot := lastIdx cs '.'
  if sep < dot then
    if (List.range cs.length).any
        (fun i => decide (sep < (i : Int)) && decide ((i : Int) < dot)
                  && (cs.getD i ' ' != '.')) then
      (String.mk (cs.take dot.toNat), String.mk (cs.drop dot.toNat))
    else (s, "")
  else (s, "")

/-- Model of Python `os.path.basename`: everything after the last slash. -/
def basename (s : String) : String :=
  String.mk (s.data.drop (lastIdx s.data '/' + 1).toNat)

/-- ASCII lowercasing, modelling Python `str.lower` on the ASCII keys the
pipeline handles. -/
def toLowerStr (s : String) : String :=
  String.mk (s.data.map Char.toLower)

/-- Value of an ASCII hex digit (mirrors the digit handling of Python
percent-decoding). -/
def hexVal (c : Char) : Option Nat :=
  let n := c.toNat
  if 48 ≤ n ∧ n ≤ 57 then some (n - 48)
  else if 65 ≤ n ∧ n ≤ 70 then some (n - 55)
  else if 97 ≤ n ∧ n ≤ 102 then some (n - 87)
  else none

/-- Character-list worker for `unquote_plus`: `+` becomes a space and a
valid `%hh` pair becomes the byte it denotes; malformed escapes are kept
verbatim, as Python does. -/
def unquoteChars : List Char → List Char
  | [] => []
  | '+' :: rest => ' ' :: unquoteChars rest
  | '%' :: a :: b :: rest =>
    match hexVal a, hexVal b with
    | some x, some y => Char.ofNat (16 * x + y) :: unquoteChars rest
    | _, _ => '%' :: unquoteChars (a :: b :: rest)
  | c :: rest => c :: unquoteChars rest

/-- Model of Python `urllib.parse.unquote_plus` for single-byte escape
sequences (the keys the claims exercise are ASCII). -/
def unquote_plus (s : String) : String :=
  String.mk (unquoteChars s.data)

/-- Boolean test that `pre` is a leading piece of `s` (Python
`str.startswith`). -/
def strStartsWith (s pre : String) : Bool :=
  decide (s.data.take pre.data.length = pre.data)

/-- Replace every occurrence of the single character `old` by `new`
(Python `str.replace` with one-character arguments). -/
def replaceChar (old new : Char) (s : String) : String :=
  String.mk (s.data.map (fun c => if c = old then new else c))

/-! ### The image model and `compress_and_create_thumbnail` -/

/-- PIL image modes the source inspects. -/
inductive ImageMode where
  | RGB | RGBA | P | L
deriving DecidableEq

/-- The facts about the downloaded source image that the transform reads:
its pixel dimensions and its mode. -/
structure SourceImage where
  width : Nat
  height : Nat
  mode : ImageMode
deriving DecidableEq

/-- Encoding format of a saved thumbnail. -/
inductive ImgFormat where
  | PNG | JPEG
deriving DecidableEq

/-- The observable result of `resized_img.save(...)`: dimensions, mode at
save time, chosen format, JPEG quality (none for PNG) and the optimize
flag. -/
structure SavedImage where
  width : Nat
  height : Nat
  mode : ImageMode
  format : ImgFormat
  quality : Option Nat
  optimize : Bool
deriving DecidableEq

/-- Embedding of `compress_and_create_thumbnail` (src/lambda_function.py
lines 10-24).  The Python `int(width * (height / width))` float truncation
is modelled as exact natural-number division (floor), its value on the
nonnegative quotients that arise here.  Resizing preserves the mode; the
JPEG branch converts RGBA/P to RGB first. -/
def compress_and_create_thumbnail (img : SourceImage) (width : Nat)
    (original_ext : String) (quality : Nat := 70) : SavedImage :=
  let new_height := width * img.height / img.width
  if toLowerStr original_ext = ".png" then
    { width := width, height := new_height, mode := img.mode,
      format := ImgFormat.PNG, quality := none, optimize := true }
  else
    let mode := if img.mode = ImageMode.RGBA ∨ img.mode = ImageMode.P
      then ImageMode.RGB else img.mode
    { width := width, height := new_height, mode := mode,
      format := ImgFormat.JPEG, quality := some quality, optimize := true }

/-- Embedding of `sanitize_filename` (lines 26-29). -/
def sanitize_filename (filename : String) : String :=
  replaceChar ')' '_' (replaceChar '(' '_' (replaceChar ' ' '_' filename))

/-! ### The handler model -/

/-- Outcome of `s3.head_object` on one key: success means the object
exists; otherwise boto3 raises a `ClientError` carrying an error code
(code `"404"` meaning not found). -/
inductive HeadRes where
  | found
  | clientError (code : String)
deriving DecidableEq

/-- Environment describing the external collaborators for one
invocation: the uuid hex string (`uuid.uuid4().hex`), the scratch
directory created by `tempfile.mkdtemp()`, the head/download/upload
behaviour of S3, and the decoded source image. -/
structure Env where
  uuid_hex : String
  temp_dir : String
  head : String → HeadRes
  downloadErr : Option String
  uploadErr : String → Option String
  image : SourceImage

/-- Operations the handler performs against the outside world, recorded
in order. -/
inductive Op where
  | mkdtemp (dir : String)
  | download (bucket key dest : String)
  | headReq (bucket key : String)
  | resizeOp (w h : Nat)
  | uploadOp (src bucket key : String)
  | removeFile (path : String)
  | rmdirOp (dir : String)
deriving DecidableEq

/-- The structured contents of the success response dictionary
(line 108-113); the handler body serialises it with `str`. -/
structure Response where
  original_file : String
  processed_files : List String
  original_filename : String
  sanitized_filename : String
deriving DecidableEq

/-- Body of a returned dictionary: a plain f-string/`str(e)` body or the
serialised success response. -/
inductive RetBody where
  | plain (s : String)
  | respStr (r : Response)
deriving DecidableEq

/-- What an invocation of `lambda_handler` does: return a
`statusCode`/`body` dictionary, or raise an uncaught exception. -/
inductive Outcome where
  | returned (statusCode : Nat) (body : RetBody)
  | raised (msg : String)
deriving DecidableEq

/-- A trigger event: either it has the `Records[0].s3.bucket.name` /
`Records[0].s3.object.key` structure the handler indexes, or it lacks it
(the indexing then raises a `KeyError` naming the missing field). -/
inductive LambdaEvent where
  | s3Event (bucket rawKey : String)
  | malformed (missingField : String)
deriving DecidableEq

/-- The configured size list (line 71). -/
def sizes : List Nat := [200, 300, 500, 1000]

/-- The supported extension list (line 44). -/
def supported_exts : List String := [".jpg", ".jpeg", ".png"]

/-- The per-size loop (lines 73-96).  For each size: derive the output
name and key, head the key (exists → skip; `ClientError` other than 404 →
raise, aborting; 404 → fall through), then resize/encode, upload, append
the s3 location, and remove the per-size temporary file.  Returns the
`processed_files` list (or the raised error) together with the operation
trace. -/
def runSizes (env : Env) (bucket file_ext base save_ext folder dir : String) :
    List Nat → Except String (List String) × List Op
  | [] => (Except.ok [], [])
  | size :: rest =>
    let output_file_name := Nat.repr size ++ "_" ++ base ++ save_ext
    let local_output_path := dir ++ "/" ++ output_file_name
    let s3_key := folder ++ output_file_name
    match env.head s3_key with
    | HeadRes.found =>
      let r := runSizes env bucket file_ext base save_ext folder dir rest
      (r.1, Op.headReq bucket s3_key :: r.2)
    | HeadRes.clientError code =>
      if code = "404" then
        let thumb := compress_and_create_thumbnail env.image size file_ext
        match env.uploadErr s3_key with
        | some msg =>
          (Except.error msg,
           [Op.headReq bucket s3_key, Op.resizeOp size thumb.height])
        | none =>
          let r := runSizes env bucket file_ext base save_ext folder dir rest
          (r.1.map (fun files => ("s3://" ++ bucket ++ "/" ++ s3_key) :: files),
           Op.headReq bucket s3_key :: Op.resizeOp size thumb.height ::
           Op.uploadOp local_output_path bucket s3_key ::
           Op.removeFile local_output_path :: r.2)
      else
        (Except.error ("HeadObject ClientError " ++ code),
         [Op.headReq bucket s3_key])

/-- The eligible path of the handler (lines 48-125): derive the names,
make the scratch directory, download the source (before the size loop —
any download failure is caught and returned as a 500), run the size loop,
then on success remove the input file, remove the scratch directory and
build the response.  On a raised error inside the loop the except block
returns 500 with the error text and performs no cleanup. -/
def processEligible (env : Env) (bucket_name object_key file_ext : String) :
    Outcome × List Op :=
  let file_name := basename object_key
  let name_without_ext := (splitext file_name).1
  let random_id := String.mk (env.uuid_hex.data.take 8)
  let sanitized_name := sanitize_filename name_without_ext
  let base_file_name := sanitized_name ++ "_" ++ random_id
  let save_ext := if toLowerStr file_ext = ".png" then ".png" else ".jpg"
  let folder_path := "processed_image/" ++ base_file_name ++ "/"
  let temp_dir := env.temp_dir
  let local_input_path := temp_dir ++ "/" ++ file_name
  match env.downloadErr with
  | some msg =>
    (Outcome.returned 500 (RetBody.plain msg),
     [Op.mkdtemp temp_dir, Op.download bucket_name object_key local_input_path])
  | none =>
    let r := runSizes env bucket_name file_ext base_file_name save_ext
        folder_path temp_dir sizes
    match r.1 with
    | Except.error msg =>
      (Outcome.returned 500 (RetBody.plain msg),
       Op.mkdtemp temp_dir ::
       Op.download bucket_name object_key local_input_path :: r.2)
    | Except.ok processed_files =>
      (Outcome.returned 200 (RetBody.respStr
        { original_file := "s3://" ++ bucket_name ++ "/" ++ object_key,
          processed_files := processed_files,
          original_filename := file_name,
          sanitized_filename := base_file_name ++ save_ext }),
       Op.mkdtemp temp_dir ::
       Op.download bucket_name object_key local_input_path ::
       (r.2 ++ [Op.removeFile local_input_path, Op.rmdirOp temp_dir]))

/-- Embedding of `lambda_handler` (lines 31-125).  The event indexing of
lines 32 and 35 happens before the try block, so a malformed event raises
an uncaught `KeyError`.  A well-formed event has its key URL-decoded and
passes the prefix and extension gates before any storage access. -/
def lambda_handler (env : Env) (event : LambdaEvent) : Outcome × List Op :=
  match event with
  | LambdaEvent.malformed missingField =>
    (Outcome.raised ("KeyError: " ++ missingField), [])
  | LambdaEvent.s3Event bucket rawKey =>
    let object_key := unquote_plus rawKey
    if strStartsWith object_key "source_image/" then
      let file_ext := toLowerStr (splitext object_key).2
      if file_ext ∈ supported_exts then
        processEligible env bucket object_key file_ext
      else
        (Outcome.returned 200
          (RetBody.plain ("Unsupported file type: " ++ file_ext)), [])
    else
      (Outcome.returned 200 (RetBody.plain ("Skipped: " ++ object_key)), [])

/-! ### Observation helpers on outcomes and traces -/

/-- Status code of a returned dictionary; `none` when an exception
escaped. -/
def statusOf : Outcome → Option Nat
  | Outcome.returned c _ => some c
  | Outcome.raised _ => none

/-- The `processed_files` list of a success response; `none` otherwise. -/
def processedOf : Outcome → Option (List String)
  | Outcome.returned _ (RetBody.respStr r) => some r.processed_files
  | _ => none

/-- Recognise a source fetch in the trace. -/
def isDownload : Op → Bool
  | Op.download _ _ _ => true
  | _ => false

/-- Recognise an upload in the trace. -/
def isUpload : Op → Bool
  | Op.uploadOp _ _ _ => true
  | _ => false

/-- Destination key of an upload operation. -/
def uploadKey : Op → Option String
  | Op.uploadOp _ _ key => some key
  | _ => none

/-- Number of source fetches in a trace. -/
def countDownloads (tr : List Op) : Nat := (tr.filter isDownload).length

/-- Number of uploads in a trace. -/
def countUploads (tr : List Op) : Nat := (tr.filter isUpload).length

/-- The key the handler derives for width `w` of the decoded
`object_key`, as the size loop computes it. -/
def handlerKey (env : Env) (object_key : String) (w : Nat) : String :=
  let base := sanitize_filename (splitext (basename object_key)).1
      ++ "_" ++ String.mk (env.uuid_hex.data.take 8)
  let se := if toLowerStr (toLowerStr (splitext object_key).2) = ".png"
      then ".png" else ".jpg"
  ("processed_image/" ++ base ++ "/") ++ (Nat.repr w ++ "_" ++ base ++ se)

/-- Recognise a cleanup operation (file or directory removal). -/
def isCleanup : Op → Bool
  | Op.removeFile _ => true
  | Op.rmdirOp _ => true
  | _ => false

/-- Lowercase hexadecimal digit test (the alphabet of `uuid4().hex`). -/
def isHexLower (c : Char) : Bool :=
  (48 ≤ c.toNat && c.toNat ≤ 57) || (97 ≤ c.toNat && c.toNat ≤ 102)

/-- The output key layout exactly as the spec words it:
`processed_image/{sanitizedBase}_{token}/{width}_{sanitizedBase}_{token}{ext}`
with `ext` equal to `.png` for a (lowercased) `.png` source extension and
`.jpg` otherwise.  Written from the spec sentence, to be compared with
the key the embedded handler produces. -/
def outputKeySpec (sanitizedBase token : String) (w : Nat) (srcExt : String) :
    String :=
  "processed_image/" ++ sanitizedBase ++ "_" ++ token ++ "/" ++ Nat.repr w
    ++ "_" ++ sanitizedBase ++ "_" ++ token
    ++ (if srcExt = ".png" then ".png" else ".jpg")

/-! ### Concrete environments used by counterexamples and witnesses -/

/-- Backend in which every derived output key already exists. -/
def envAllFound : Env :=
  { uuid_hex := "0123456789abcdef0123456789abcdef",
    temp_dir := "/tmp/scratch2",
    head := fun _ => HeadRes.found,
    downloadErr := none,
    uploadErr := fun _ => none,
    image := ⟨800, 600, ImageMode.RGB⟩ }

/-- Backend in which no derived output key exists (every existence check
raises a 404 `ClientError`). -/
def envAll404 : Env :=
  { uuid_hex := "0123456789abcdef0123456789abcdef",
    temp_dir := "/tmp/scratch3",
    head := fun _ => HeadRes.clientError "404",
    downloadErr := none,
    uploadErr := fun _ => none,
    image := ⟨800, 600, ImageMode.RGB⟩ }

/-- Backend whose existence check fails with a non-404 error. -/
def envHeadFail : Env :=
  { uuid_hex := "0123456789abcdef0123456789abcdef",
    temp_dir := "/tmp/scratch4",
    head := fun _ => HeadRes.clientError "AccessDenied",
    downloadErr := none,
    uploadErr := fun _ => none,
    image := ⟨800, 600, ImageMode.RGB⟩ }

/-- Backend holding a very wide source image (1000 x 1) with no existing
outputs. -/
def envWide : Env :=
  { uuid_hex := "0123456789abcdef0123456789abcdef",
    temp_dir := "/tmp/scratch5",
    head := fun _ => HeadRes.clientError "404",
    downloadErr := none,
    uploadErr := fun _ => none,
    image := ⟨1000, 1, ImageMode.RGB⟩ }

/-- Backend in which the 300 and 1000 outputs already exist and the 200
and 500 outputs do not. -/
def envMixed : Env :=
  { uuid_hex := "0123456789abcdef0123456789abcdef",
    temp_dir := "/tmp/scratch6",
    head := fun k =>
      if k = "processed_image/pic_01234567/300_pic_01234567.jpg" then
        HeadRes.found
      else if k = "processed_image/pic_01234567/1000_pic_01234567.jpg" then
        HeadRes.found
      else HeadRes.clientError "404",
    downloadErr := none,
    uploadErr := fun _ => none,
    image := ⟨800, 600, ImageMode.RGB⟩ }

/-! ### Helper lemmas about the size loop -/

/-- When every key of the list is reported as existing, the loop skips
every width: it returns an empty `processed_files` list and its trace is
one existence check per width. -/
theorem runSizes_all_found (env : Env)
    (bucket file_ext base save_ext folder dir : String) :
    ∀ szs : List Nat,
      (∀ s ∈ szs,
        env.head (folder ++ (Nat.repr s ++ "_" ++ base ++ save_ext))
          = HeadRes.found) →
      runSizes env bucket file_ext base save_ext folder dir szs
        = (Except.ok [],
           szs.map (fun s =>
             Op.headReq bucket
               (folder ++ (Nat.repr s ++ "_" ++ base ++ save_ext)))) := by
  intro szs
  induction szs with
  | nil => intro _; rfl
  | cons size rest ih =>
    intro h
    have hhead := h size (List.mem_cons_self size rest)
    have hrest := ih (fun s hs => h s (List.mem_cons_of_mem size hs))
    simp only [runSizes, hhead, hrest, List.map_cons]

/-- On a successful run, the `processed_files` list is the location
strings of a sublist of the width list, in order. -/
theorem runSizes_ok_widths (env : Env)
    (bucket file_ext base save_ext folder dir : String) :
    ∀ (szs : List Nat) (files : List String),
      (runSizes env bucket file_ext base save_ext folder dir szs).1
        = Except.ok files →
      ∃ ws : List Nat, ws.Sublist szs ∧
        files = ws.map (fun s =>
          "s3://" ++ bucket ++ "/"
            ++ (folder ++ (Nat.repr s ++ "_" ++ base ++ save_ext))) := by
  intro szs
  induction szs with
  | nil =>
    intro files hf
    refine ⟨[], List.nil_sublist _, ?_⟩
    simpa [runSizes] using hf.symm
  | cons size rest ih =>
    intro files hf
    cases hhead : env.head (folder ++ (Nat.repr size ++ "_" ++ base ++ save_ext)) with
    | found =>
      simp only [runSizes, hhead] at hf
      obtain ⟨ws, hws, hfiles⟩ := ih files hf
      exact ⟨ws, hws.cons size, hfiles⟩
    | clientError code =>
      by_cases hc : code = "404"
      · subst hc
        cases hup : env.uploadErr (folder ++ (Nat.repr size ++ "_" ++ base ++ save_ext)) with
        | some msg => simp [runSizes, hhead, hup] at hf
        | none =>
          simp only [runSizes, hhead, hup, if_pos] at hf
          cases hr : (runSizes env bucket file_ext base save_ext folder dir rest).1 with
          | error e => simp [hr, Except.map] at hf
          | ok files' =>
            simp only [hr, Except.map, Except.ok.injEq] at hf
            obtain ⟨ws, hws, hfiles⟩ := ih files' hr
            refine ⟨size :: ws, hws.cons₂ size, ?_⟩
            rw [← hf]
            simp [hfiles]
      · simp [runSizes, hhead, hc] at hf

/-- Every upload the size loop performs targets the derived key of one of
the widths in the list. -/
theorem runSizes_upload_keys (env : Env)
    (bucket file_ext base save_ext folder dir : String) :
    ∀ (szs : List Nat) (op : Op) (k : String),
      op ∈ (runSizes env bucket file_ext base save_ext folder dir szs).2 →
      uploadKey op = some k →
      ∃ s ∈ szs, k = folder ++ (Nat.repr s ++ "_" ++ base ++ save_ext) := by
  intro szs
  induction szs with
  | nil => intro op k hop _; simp [runSizes] at hop
  | cons size rest ih =>
    intro op k hop hk
    cases hhead : env.head (folder ++ (Nat.repr size ++ "_" ++ base ++ save_ext)) with
    | found =>
      simp only [runSizes, hhead] at hop
      rcases List.mem_cons.1 hop with h | h
      · subst h; simp [uploadKey] at hk
      · obtain ⟨s, hs, hks⟩ := ih op k h hk
        exact ⟨s, List.mem_cons_of_mem size hs, hks⟩
    | clientError code =>
      by_cases hc : code = "404"
      · subst hc
        cases hup : env.uploadErr (folder ++ (Nat.repr size ++ "_" ++ base ++ save_ext)) with
        | some msg =>
          simp only [runSizes, hhead, hup, if_pos, List.mem_cons,
            List.not_mem_nil, or_false] at hop
          rcases hop with h | h
          · subst h; simp [uploadKey] at hk
          · subst h; simp [uploadKey] at hk
        | none =>
          simp only [runSizes, hhead, hup, if_pos] at hop
          rcases List.mem_cons.1 hop with h | hop'
          · subst h; simp [uploadKey] at hk
          rcases List.mem_cons.1 hop' with h | hop''
          · subst h; simp [uploadKey] at hk
          rcases List.mem_cons.1 hop'' with h | hop3
          · subst h
            simp only [uploadKey, Option.some.injEq] at hk
            exact ⟨size, List.mem_cons_self size rest, hk.symm⟩
          rcases List.mem_cons.1 hop3 with h | hop4
          · subst h; simp [uploadKey] at hk
          · obtain ⟨s, hs, hks⟩ := ih op k hop4 hk
            exact ⟨s, List.mem_cons_of_mem size hs, hks⟩
      · simp only [runSizes, hhead, if_neg hc, List.mem_cons,
          List.not_mem_nil, or_false] at hop
        subst hop; simp [uploadKey] at hk

/-- The size loop never removes the scratch directory. -/
theorem runSizes_no_rmdir (env : Env)
    (bucket file_ext base save_ext folder dir : String) :
    ∀ (szs : List Nat) (d : String),
      Op.rmdirOp d ∉
        (runSizes env bucket file_ext base save_ext folder dir szs).2 := by
  intro szs
  induction szs with
  | nil => intro d h; simp [runSizes] at h
  | cons size rest ih =>
    intro d h
    cases hhead : env.head (folder ++ (Nat.repr size ++ "_" ++ base ++ save_ext)) with
    | found =>
      simp only [runSizes, hhead] at h
      rcases List.mem_cons.1 h with h' | h'
      · cases h'
      · exact ih d h'
    | clientError code =>
      by_cases hc : code = "404"
      · subst hc
        cases hup : env.uploadErr (folder ++ (Nat.repr size ++ "_" ++ base ++ save_ext)) with
        | some msg =>
          simp only [runSizes, hhead, hup, if_pos] at h
          simp at h
        | none =>
          simp only [runSizes, hhead, hup, if_pos] at h
          rcases List.mem_cons.1 h with h' | h2
          · cases h'
          rcases List.mem_cons.1 h2 with h' | h3
          · cases h'
          rcases List.mem_cons.1 h3 with h' | h4
          · cases h'
          rcases List.mem_cons.1 h4 with h' | h5
          · cases h'
          · exact ih d h5
      · simp only [runSizes, hhead, if_neg hc] at h
        simp at h

/-- Filtering uploads out of a pure existence-check trace gives nothing. -/
theorem countUploads_headReqs (bucket : String) (f : Nat → String) :
    ∀ szs : List Nat,
      countUploads (szs.map (fun s => Op.headReq bucket (f s))) = 0 := by
  intro szs
  simp [countUploads, isUpload]

/-- The handler on an eligible event reduces to `processEligible`. -/
theorem lambda_handler_eligible (env : Env) (bucket raw : String)
    (h1 : strStartsWith (unquote_plus raw) "source_image/" = true)
    (h2 : toLowerStr (splitext (unquote_plus raw)).2 ∈ supported_exts) :
    lambda_handler env (LambdaEvent.s3Event bucket raw)
      = processEligible env bucket (unquote_plus raw)
          (toLowerStr (splitext (unquote_plus raw)).2) := by
  simp only [lambda_handler, h1, if_true, h2, if_pos]

/-- `processEligible` never lets an exception escape: it always returns a
`statusCode`/`body` dictionary. -/
theorem processEligible_returns (env : Env) (bucket key ext : String) :
    ∃ c b, (processEligible env bucket key ext).1 = Outcome.returned c b := by
  simp only [processEligible]
  cases env.downloadErr with
  | some msg => exact ⟨500, RetBody.plain msg, rfl⟩
  | none =>
    cases hr : (runSizes env bucket ext
        (sanitize_filename (splitext (basename key)).1 ++ "_"
          ++ String.mk (env.uuid_hex.data.take 8))
        (if toLowerStr ext = ".png" then ".png" else ".jpg")
        ("processed_image/"
          ++ (sanitize_filename (splitext (basename key)).1 ++ "_"
            ++ String.mk (env.uuid_hex.data.take 8)) ++ "/")
        env.temp_dir sizes).1 with
    | error msg => exact ⟨500, RetBody.plain msg, by simp only [hr]⟩
    | ok files =>
      exact ⟨200, RetBody.respStr
        { original_file := "s3://" ++ bucket ++ "/" ++ key,
          processed_files := files,
          original_filename := basename key,
          sanitized_filename :=
            sanitize_filename (splitext (basename key)).1 ++ "_"
              ++ String.mk (env.uuid_hex.data.take 8)
              ++ if toLowerStr ext = ".png" then ".png" else ".jpg" },
        by simp only [hr]⟩

/-- Every upload of the eligible path targets a derived key of one of
the configured widths. -/
theorem processEligible_upload_keys (env : Env) (bucket key ext : String)
    (op : Op) (k : String)
    (hop : op ∈ (processEligible env bucket key ext).2)
    (hk : uploadKey op = some k) :
    ∃ s ∈ sizes,
      k = ("processed_image/"
            ++ (sanitize_filename (splitext (basename key)).1 ++ "_"
                ++ String.mk (env.uuid_hex.data.take 8)) ++ "/")
          ++ (Nat.repr s ++ "_"
              ++ (sanitize_filename (splitext (basename key)).1 ++ "_"
                  ++ String.mk (env.uuid_hex.data.take 8))
              ++ (if toLowerStr ext = ".png" then ".png" else ".jpg")) := by
  cases hdl : env.downloadErr with
  | some msg =>
    simp only [processEligible, hdl, List.mem_cons, List.not_mem_nil,
      or_false] at hop
    rcases hop with h | h <;> (subst h; simp [uploadKey] at hk)
  | none =>
    simp only [processEligible, hdl] at hop
    cases hr : (runSizes env bucket ext
        (sanitize_filename (splitext (basename key)).1 ++ "_"
          ++ String.mk (env.uuid_hex.data.take 8))
        (if toLowerStr ext = ".png" then ".png" else ".jpg")
        ("processed_image/"
          ++ (sanitize_filename (splitext (basename key)).1 ++ "_"
            ++ String.mk (env.uuid_hex.data.take 8)) ++ "/")
        env.temp_dir sizes).1 with
    | error msg =>
      simp only [hr] at hop
      rcases List.mem_cons.1 hop with h | hop'
      · subst h; simp [uploadKey] at hk
      rcases List.mem_cons.1 hop' with h | hop''
      · subst h; simp [uploadKey] at hk
      · exact runSizes_upload_keys env bucket ext _ _ _ _ sizes op k hop'' hk
    | ok files =>
      simp only [hr] at hop
      rcases List.mem_cons.1 hop with h | hop'
      · subst h; simp [uploadKey] at hk
      rcases List.mem_cons.1 hop' with h | hop''
      · subst h; simp [uploadKey] at hk
      rcases List.mem_append.1 hop'' with hop3 | hop3
      · exact runSizes_upload_keys env bucket ext _ _ _ _ sizes op k hop3 hk
      · simp only [List.mem_cons, List.not_mem_nil, or_false] at hop3
        rcases hop3 with h | h <;> (subst h; simp [uploadKey] at hk)

/-- When the size loop raises, the handler catches it and returns a 500
carrying the error text, with a trace of the scratch-directory creation,
the download, and the loop trace (no invocation-level cleanup). -/
theorem processEligible_error (env : Env) (bucket key ext msg : String)
    (hdl : env.downloadErr = none)
    (hr : (runSizes env bucket ext
        (sanitize_filename (splitext (basename key)).1 ++ "_"
          ++ String.mk (env.uuid_hex.data.take 8))
        (if toLowerStr ext = ".png" then ".png" else ".jpg")
        ("processed_image/"
          ++ (sanitize_filename (splitext (basename key)).1 ++ "_"
            ++ String.mk (env.uuid_hex.data.take 8)) ++ "/")
        env.temp_dir sizes).1 = Except.error msg) :
    processEligible env bucket key ext
      = (Outcome.returned 500 (RetBody.plain msg),
         Op.mkdtemp env.temp_dir
           :: Op.download bucket key (env.temp_dir ++ "/" ++ basename key)
           :: (runSizes env bucket ext
                (sanitize_filename (splitext (basename key)).1 ++ "_"
                  ++ String.mk (env.uuid_hex.data.take 8))
                (if toLowerStr ext = ".png" then ".png" else ".jpg")
                ("processed_image/"
                  ++ (sanitize_filename (splitext (basename key)).1 ++ "_"
                    ++ String.mk (env.uuid_hex.data.take 8)) ++ "/")
                env.temp_dir sizes).2) := by
  simp only [processEligible, hdl, hr]

/-! ### Claim C3: format rule -/

/-- Claim C3: for a `.png` source extension (case-insensitively) the
output is encoded as PNG, always; for every other source the output is
JPEG at the fixed default quality 70 with optimization enabled, and a
resized image in mode RGBA or P is converted to RGB (so the saved JPEG
never carries an alpha or palette channel). -/
theorem c3_format_rule (img : SourceImage) (w : Nat) (ext : String) :
    (toLowerStr ext = ".png" →
      compress_and_create_thumbnail img w ext
        = { width := w, height := w * img.height / img.width,
            mode := img.mode, format := ImgFormat.PNG,
            quality := none, optimize := true }) ∧
    (toLowerStr ext ≠ ".png" →
      (compress_and_create_thumbnail img w ext).format = ImgFormat.JPEG ∧
      (compress_and_create_thumbnail img w ext).quality = some 70 ∧
      (compress_and_create_thumbnail img w ext).optimize = true ∧
      (compress_and_create_thumbnail img w ext).mode
        = (if img.mode = ImageMode.RGBA ∨ img.mode = ImageMode.P
            then ImageMode.RGB else img.mode) ∧
      (compress_and_create_thumbnail img w ext).mode ≠ ImageMode.RGBA ∧
      (compress_and_create_thumbnail img w ext).mode ≠ ImageMode.P) := by
  constructor
  · intro h
    simp [compress_and_create_thumbnail, h]
  · intro h
    refine ⟨?_, ?_, ?_, ?_, ?_, ?_⟩ <;>
      cases hm : img.mode <;>
        simp [compress_and_create_thumbnail, h, hm]

/-- Witness for C3 at concrete inputs: a `.PNG` source stays PNG with its
RGBA mode kept, and a `.jpg` source becomes an optimized quality-70 JPEG
with RGBA flattened to RGB. -/
theorem c3_witness :
    compress_and_create_thumbnail ⟨640, 480, ImageMode.RGBA⟩ 200 ".PNG"
        = { width := 200, height := 200 * 480 / 640, mode := ImageMode.RGBA,
            format := ImgFormat.PNG, quality := none, optimize := true } ∧
    (compress_and_create_thumbnail ⟨640, 480, ImageMode.RGBA⟩ 200 ".jpg").format
        = ImgFormat.JPEG ∧
    (compress_and_create_thumbnail ⟨640, 480, ImageMode.RGBA⟩ 200 ".jpg").quality
        = some 70 ∧
    (compress_and_create_thumbnail ⟨640, 480, ImageMode.RGBA⟩ 200 ".jpg").optimize
        = true ∧
    (compress_and_create_thumbnail ⟨640, 480, ImageMode.RGBA⟩ 200 ".jpg").mode
        = ImageMode.RGB :=
  ⟨(c3_format_rule ⟨640, 480, ImageMode.RGBA⟩ 200 ".PNG").1 (by decide),
   ((c3_format_rule ⟨640, 480, ImageMode.RGBA⟩ 200 ".jpg").2 (by decide)).1,
   ((c3_format_rule ⟨640, 480, ImageMode.RGBA⟩ 200 ".jpg").2 (by decide)).2.1,
   ((c3_format_rule ⟨640, 480, ImageMode.RGBA⟩ 200 ".jpg").2 (by decide)).2.2.1,
   by
     have h :=
       ((c3_format_rule ⟨640, 480, ImageMode.RGBA⟩ 200 ".jpg").2
         (by decide)).2.2.2.1
     simpa using h⟩

/-! ### Claim C5: resize height computation -/

/-- Counterexample to C5 as stated: for a 3 x 2 source and width 250 the
code computes height 166 (truncation), while round(250 times 2 / 3) is
167, so the output height does not equal the rounded value. -/
theorem c5_counterexample :
    (compress_and_create_thumbnail ⟨3, 2, ImageMode.RGB⟩ 250 ".jpg" 70).height
        = 166 ∧
    round ((250 * 2 : ℚ) / 3) = 167 := by
  constructor
  · rfl
  · norm_num [round_eq, Int.floor_eq_iff]

/-- Claim C5 amended: the resized output height is the truncated value
floor(w times sourceHeight / sourceWidth), which is within one of the
rounded value: floor is at most round, and round is at most floor + 1. -/
theorem c5_amended_truncation (img : SourceImage) (w : Nat) (ext : String)
    (q : Nat) (hW : 0 < img.width) :
    (compress_and_create_thumbnail img w ext q).height
        = w * img.height / img.width ∧
    ((w * img.height / img.width : Nat) : ℤ)
        ≤ round ((w * img.height : ℚ) / (img.width : ℚ)) ∧
    round ((w * img.height : ℚ) / (img.width : ℚ))
        ≤ ((w * img.height / img.width : Nat) : ℤ) + 1 := by
  have hb : (0 : ℚ) < (img.width : ℚ) := by exact_mod_cast hW
  have hx : (0 : ℚ) ≤ (w * img.height : ℚ) / (img.width : ℚ) := by positivity
  have hfl : (((w * img.height / img.width : Nat)) : ℤ)
      = ⌊(w * img.height : ℚ) / (img.width : ℚ)⌋ := by
    rw [← Int.natCast_floor_eq_floor hx]
    congr 1
    rw [show ((w : ℚ) * (img.height : ℚ)) = ((w * img.height : Nat) : ℚ) by
      push_cast; ring]
    rw [Nat.floor_div_nat ((w * img.height : Nat) : ℚ) img.width,
      Nat.floor_natCast]
  refine ⟨?_, ?_, ?_⟩
  · simp only [compress_and_create_thumbnail]
    split <;> rfl
  · rw [hfl, round_eq]
    exact Int.floor_le_floor (by linarith)
  · rw [hfl, round_eq]
    have h2 : ((w * img.height : ℚ) / (img.width : ℚ) + 1 / 2)
        ≤ ((w * img.height : ℚ) / (img.width : ℚ)) + ((1 : ℤ) : ℚ) := by
      push_cast; linarith
    have h3 := Int.floor_le_floor h2
    rwa [Int.floor_add_int] at h3

/-- Witness for the amended C5 at the 3 x 2 source with width 250. -/
theorem c5_witness :
    (compress_and_create_thumbnail ⟨3, 2, ImageMode.RGB⟩ 250 ".jpg" 70).height
        = 250 * 2 / 3 ∧
    ((250 * 2 / 3 : Nat) : ℤ)
        ≤ round (((250 : ℕ) : ℚ) * ((2 : ℕ) : ℚ) / ((3 : ℕ) : ℚ)) ∧
    round (((250 : ℕ) : ℚ) * ((2 : ℕ) : ℚ) / ((3 : ℕ) : ℚ))
        ≤ ((250 * 2 / 3 : Nat) : ℤ) + 1 :=
  c5_amended_truncation ⟨3, 2, ImageMode.RGB⟩ 250 ".jpg" 70 (by decide)

/-! ### Claim C6: ingress filtering -/

/-- Claim C6: an event whose decoded key is outside the source prefix, or
whose lowercased extension is unsupported, is answered with a plain
status-200 skip body, no exception, and an empty operation trace (no
existence check, no fetch, no upload). -/
theorem c6_ingress_skip (env : Env) (bucket raw : String)
    (h : strStartsWith (unquote_plus raw) "source_image/" = false ∨
         toLowerStr (splitext (unquote_plus raw)).2 ∉ supported_exts) :
    (∃ b, (lambda_handler env (LambdaEvent.s3Event bucket raw)).1
        = Outcome.returned 200 (RetBody.plain b)) ∧
    (lambda_handler env (LambdaEvent.s3Event bucket raw)).2 = [] := by
  rcases h with h | h
  · constructor
    · exact ⟨"Skipped: " ++ unquote_plus raw, by simp [lambda_handler, h]⟩
    · simp [lambda_handler, h]
  · by_cases h1 : strStartsWith (unquote_plus raw) "source_image/" = true
    · constructor
      · exact ⟨"Unsupported file type: "
            ++ toLowerStr (splitext (unquote_plus raw)).2,
          by simp [lambda_handler, h1, h]⟩
      · simp [lambda_handler, h1, h]
    · constructor
      · exact ⟨"Skipped: " ++ unquote_plus raw, by simp [lambda_handler, h1]⟩
      · simp [lambda_handler, h1]

/-- Witness for C6: the wrong-prefix key `archive/doc.jpg` and the
unsupported-extension key `source_image/x.gif` are both skipped with an
empty trace. -/
theorem c6_witness :
    ((∃ b, (lambda_handler envAllFound
          (LambdaEvent.s3Event "bkt" "archive/doc.jpg")).1
        = Outcome.returned 200 (RetBody.plain b)) ∧
      (lambda_handler envAllFound
          (LambdaEvent.s3Event "bkt" "archive/doc.jpg")).2 = []) ∧
    ((∃ b, (lambda_handler envAllFound
          (LambdaEvent.s3Event "bkt" "source_image/x.gif")).1
        = Outcome.returned 200 (RetBody.plain b)) ∧
      (lambda_handler envAllFound
          (LambdaEvent.s3Event "bkt" "source_image/x.gif")).2 = []) :=
  ⟨c6_ingress_skip envAllFound "bkt" "archive/doc.jpg" (Or.inl (by decide)),
   c6_ingress_skip envAllFound "bkt" "source_image/x.gif" (Or.inr (by decide))⟩

/-! ### Claim C9: truncation and the unguarded zero-height resize -/

/-- Claim C9: the resize height computation truncates (floor of
w times height / width), so it is 0 whenever w times sourceHeight is less
than sourceWidth, and nothing in the pipeline guards against that: on a
1000 x 1 source the handler actually performs a resize to height 0 for
width 200. -/
theorem c9_truncation_unguarded :
    (∀ (img : SourceImage) (w : Nat) (ext : String) (q : Nat),
      (compress_and_create_thumbnail img w ext q).height
        = w * img.height / img.width) ∧
    (∀ (img : SourceImage) (w : Nat) (ext : String) (q : Nat),
      w * img.height < img.width →
      (compress_and_create_thumbnail img w ext q).height = 0) ∧
    Op.resizeOp 200 0 ∈
      (lambda_handler envWide
        (LambdaEvent.s3Event "bkt" "source_image/wide.jpg")).2 := by
  refine ⟨?_, ?_, ?_⟩
  · intro img w ext q
    simp only [compress_and_create_thumbnail]
    split <;> rfl
  · intro img w ext q h
    simp only [compress_and_create_thumbnail]
    split <;> exact Nat.div_eq_of_lt h
  · decide

/-- Witness for C9: the 1000 x 1 source with target width 200 yields a
computed height of 0. -/
theorem c9_witness :
    (compress_and_create_thumbnail ⟨1000, 1, ImageMode.RGB⟩ 200 ".jpg" 70).height
        = 0 :=
  c9_truncation_unguarded.2.1 ⟨1000, 1, ImageMode.RGB⟩ 200 ".jpg" 70 (by decide)

/-! ### Claim C10: malformed events raise before the try block -/

/-- Claim C10: an event lacking the `Records[0].s3` structure makes the
handler raise an uncaught `KeyError` (no structured 500 response), while
a well-formed event never lets an exception escape. -/
theorem c10_malformed_event_raises :
    (∀ (env : Env) (d : String),
      lambda_handler env (LambdaEvent.malformed d)
        = (Outcome.raised ("KeyError: " ++ d), [])) ∧
    (∀ (env : Env) (bucket raw m : String),
      (lambda_handler env (LambdaEvent.s3Event bucket raw)).1
        ≠ Outcome.raised m) := by
  constructor
  · intro env d; rfl
  · intro env bucket raw m
    by_cases h1 : strStartsWith (unquote_plus raw) "source_image/" = true
    · by_cases h2 : toLowerStr (splitext (unquote_plus raw)).2 ∈ supported_exts
      · rw [lambda_handler_eligible env bucket raw h1 h2]
        obtain ⟨c, b, hc⟩ := processEligible_returns env bucket
          (unquote_plus raw) (toLowerStr (splitext (unquote_plus raw)).2)
        rw [hc]
        simp
      · simp [lambda_handler, h1, h2]
    · simp [lambda_handler, h1]

/-- Witness for C10 at a concrete malformed event and a concrete
well-formed event. -/
theorem c10_witness :
    lambda_handler envAllFound (LambdaEvent.malformed "Records")
        = (Outcome.raised ("KeyError: " ++ "Records"), []) ∧
    (lambda_handler envAllFound
        (LambdaEvent.s3Event "bkt" "source_image/pic.jpg")).1
      ≠ Outcome.raised "x" :=
  ⟨c10_malformed_event_raises.1 envAllFound "Records",
   c10_malformed_event_raises.2 envAllFound "bkt" "source_image/pic.jpg" "x"⟩

/-! ### Claim C1: the source fetch is eager, not lazy -/

/-- Counterexample to C1 as stated: with every derived output already
existing, the invocation succeeds with an empty `processed_files` list
and performs zero uploads — yet it still performs one fetch, because the
download happens before the size loop, contradicting the claimed zero
fetch calls. -/
theorem c1_counterexample :
    statusOf (lambda_handler envAllFound
        (LambdaEvent.s3Event "bkt" "source_image/pic.jpg")).1 = some 200 ∧
    processedOf (lambda_handler envAllFound
        (LambdaEvent.s3Event "bkt" "source_image/pic.jpg")).1 = some [] ∧
    countUploads (lambda_handler envAllFound
        (LambdaEvent.s3Event "bkt" "source_image/pic.jpg")).2 = 0 ∧
    countDownloads (lambda_handler envAllFound
        (LambdaEvent.s3Event "bkt" "source_image/pic.jpg")).2 = 1 := by
  decide

/-- Claim C1 amended: the source object is fetched exactly once per
eligible invocation, unconditionally and before any existence check;
when every configured width already has an output the handler still
performs that one fetch, performs zero uploads, and returns a success
status with an empty `processedLocations` sequence. -/
theorem c1_amended_eager_fetch (env : Env) (bucket raw : String)
    (h1 : strStartsWith (unquote_plus raw) "source_image/" = true)
    (h2 : toLowerStr (splitext (unquote_plus raw)).2 ∈ supported_exts)
    (hdl : env.downloadErr = none)
    (hall : ∀ s ∈ sizes,
      env.head (handlerKey env (unquote_plus raw) s) = HeadRes.found) :
    countDownloads
        (lambda_handler env (LambdaEvent.s3Event bucket raw)).2 = 1 ∧
    countUploads (lambda_handler env (LambdaEvent.s3Event bucket raw)).2 = 0 ∧
    statusOf (lambda_handler env (LambdaEvent.s3Event bucket raw)).1
        = some 200 ∧
    processedOf (lambda_handler env (LambdaEvent.s3Event bucket raw)).1
        = some [] := by
  rw [lambda_handler_eligible env bucket raw h1 h2]
  simp only [handlerKey] at hall
  simp only [processEligible, hdl]
  rw [runSizes_all_found env bucket
    (toLowerStr (splitext (unquote_plus raw)).2)
    (sanitize_filename (splitext (basename (unquote_plus raw))).1 ++ "_"
      ++ String.mk (env.uuid_hex.data.take 8))
    (if toLowerStr (toLowerStr (splitext (unquote_plus raw)).2) = ".png"
      then ".png" else ".jpg")
    ("processed_image/"
      ++ (sanitize_filename (splitext (basename (unquote_plus raw))).1 ++ "_"
        ++ String.mk (env.uuid_hex.data.take 8)) ++ "/")
    env.temp_dir sizes hall]
  simp [statusOf, processedOf, countDownloads, countUploads, isDownload,
    isUpload]

/-- Witness for the amended C1 in the all-outputs-exist backend. -/
theorem c1_witness :
    countDownloads (lambda_handler envAllFound
        (LambdaEvent.s3Event "bkt2" "source_image/other.png")).2 = 1 ∧
    countUploads (lambda_handler envAllFound
        (LambdaEvent.s3Event "bkt2" "source_image/other.png")).2 = 0 ∧
    statusOf (lambda_handler envAllFound
        (LambdaEvent.s3Event "bkt2" "source_image/other.png")).1 = some 200 ∧
    processedOf (lambda_handler envAllFound
        (LambdaEvent.s3Event "bkt2" "source_image/other.png")).1 = some [] :=
  c1_amended_eager_fetch envAllFound "bkt2" "source_image/other.png"
    (by decide) (by decide) rfl (fun _ _ => rfl)

/-! ### Claim C2: exact output key layout -/

/-- Claim C2: for an eligible source, every upload the handler performs
targets a key equal to
`processed_image/{sanitizedBase}_{token}/{w}_{sanitizedBase}_{token}{ext}`
for some configured width `w`, where the token is the 8 lowercase hex
characters taken from the uuid, `ext` is `.png` exactly when the
lowercased source extension is `.png` and `.jpg` otherwise, and
`sanitizedBase` is the basename without extension with space, `(` and `)`
replaced by `_`. -/
theorem c2_output_key (env : Env) (bucket raw : String)
    (h1 : strStartsWith (unquote_plus raw) "source_image/" = true)
    (h2 : toLowerStr (splitext (unquote_plus raw)).2 ∈ supported_exts)
    (hlen : env.uuid_hex.data.length = 32)
    (hhex : ∀ c ∈ env.uuid_hex.data, isHexLower c = true) :
    ((String.mk (env.uuid_hex.data.take 8)).data.length = 8 ∧
      ∀ c ∈ (String.mk (env.uuid_hex.data.take 8)).data,
        isHexLower c = true) ∧
    ∀ op ∈ (lambda_handler env (LambdaEvent.s3Event bucket raw)).2, ∀ k,
      uploadKey op = some k →
      ∃ w ∈ sizes,
        k = outputKeySpec
              (sanitize_filename (splitext (basename (unquote_plus raw))).1)
              (String.mk (env.uuid_hex.data.take 8)) w
              (toLowerStr (splitext (unquote_plus raw)).2) := by
  refine ⟨⟨?_, ?_⟩, ?_⟩
  · simp [hlen]
  · intro c hc
    exact hhex c (List.mem_of_mem_take hc)
  · intro op hop k hk
    rw [lambda_handler_eligible env bucket raw h1 h2] at hop
    obtain ⟨w, hw, hkey⟩ := processEligible_upload_keys env bucket
      (unquote_plus raw) (toLowerStr (splitext (unquote_plus raw)).2)
      op k hop hk
    refine ⟨w, hw, ?_⟩
    rw [hkey]
    have h2' : toLowerStr (splitext (unquote_plus raw)).2 = ".jpg"
        ∨ toLowerStr (splitext (unquote_plus raw)).2 = ".jpeg"
        ∨ toLowerStr (splitext (unquote_plus raw)).2 = ".png" := by
      simpa [supported_exts] using h2
    rcases h2' with h | h | h <;>
      simp [h, outputKeySpec, String.append_assoc,
        show toLowerStr ".jpg" = ".jpg" from rfl,
        show toLowerStr ".jpeg" = ".jpeg" from rfl,
        show toLowerStr ".png" = ".png" from rfl]

/-- Witness for C2 on the spec Scenario A event
`source_image/My Photo (1).png` (URL-encoded in the trigger). -/
theorem c2_witness :
    ((String.mk (envAll404.uuid_hex.data.take 8)).data.length = 8 ∧
      ∀ c ∈ (String.mk (envAll404.uuid_hex.data.take 8)).data,
        isHexLower c = true) ∧
    ∀ op ∈ (lambda_handler envAll404
        (LambdaEvent.s3Event "bkt" "source_image/My+Photo+%281%29.png")).2,
      ∀ k, uploadKey op = some k →
      ∃ w ∈ sizes,
        k = outputKeySpec
              (sanitize_filename
                (splitext (basename
                  (unquote_plus "source_image/My+Photo+%281%29.png"))).1)
              (String.mk (envAll404.uuid_hex.data.take 8)) w
              (toLowerStr
                (splitext
                  (unquote_plus "source_image/My+Photo+%281%29.png")).2) :=
  c2_output_key envAll404 "bkt" "source_image/My+Photo+%281%29.png"
    (by decide) (by decide) (by decide) (by decide)

/-! ### Claim C4: existence-check discrimination -/

/-- Counterexample to C4 as stated: when the existence check reports not
found (ClientError 404) the width is NOT skipped — the handler resizes
and uploads it.  In the all-404 backend every one of the four widths is
uploaded. -/
theorem c4_counterexample :
    envAll404.head "processed_image/pic_01234567/200_pic_01234567.jpg"
        = HeadRes.clientError "404" ∧
    Op.uploadOp "/tmp/scratch3/200_pic_01234567.jpg" "bkt"
        "processed_image/pic_01234567/200_pic_01234567.jpg"
      ∈ (lambda_handler envAll404
          (LambdaEvent.s3Event "bkt" "source_image/pic.jpg")).2 ∧
    countUploads (lambda_handler envAll404
        (LambdaEvent.s3Event "bkt" "source_image/pic.jpg")).2 = 4 := by
  decide

/-- Claim C4 amended: a width whose existence check succeeds (output
already present) is skipped with no upload and processing advances to the
next width; a width whose check fails with code 404 is processed and its
output uploaded; a check failure with any other code aborts the loop at
once (no further widths, no uploads) and the handler returns the failure
status carrying the error description. -/
theorem c4_amended_discrimination :
    (∀ (env : Env) (bucket file_ext base save_ext folder dir : String)
        (size : Nat) (rest : List Nat),
      env.head (folder ++ (Nat.repr size ++ "_" ++ base ++ save_ext))
          = HeadRes.found →
      (runSizes env bucket file_ext base save_ext folder dir
          (size :: rest)).1
        = (runSizes env bucket file_ext base save_ext folder dir rest).1 ∧
      (runSizes env bucket file_ext base save_ext folder dir
          (size :: rest)).2
        = Op.headReq bucket
            (folder ++ (Nat.repr size ++ "_" ++ base ++ save_ext))
          :: (runSizes env bucket file_ext base save_ext folder dir
                rest).2) ∧
    (∀ (env : Env) (bucket file_ext base save_ext folder dir : String)
        (size : Nat) (rest : List Nat),
      env.head (folder ++ (Nat.repr size ++ "_" ++ base ++ save_ext))
          = HeadRes.clientError "404" →
      env.uploadErr (folder ++ (Nat.repr size ++ "_" ++ base ++ save_ext))
          = none →
      Op.uploadOp (dir ++ "/" ++ (Nat.repr size ++ "_" ++ base ++ save_ext))
          bucket (folder ++ (Nat.repr size ++ "_" ++ base ++ save_ext))
        ∈ (runSizes env bucket file_ext base save_ext folder dir
            (size :: rest)).2) ∧
    (∀ (env : Env) (bucket file_ext base save_ext folder dir : String)
        (size : Nat) (rest : List Nat) (c : String),
      c ≠ "404" →
      env.head (folder ++ (Nat.repr size ++ "_" ++ base ++ save_ext))
          = HeadRes.clientError c →
      (runSizes env bucket file_ext base save_ext folder dir
          (size :: rest)).1
        = Except.error ("HeadObject ClientError " ++ c) ∧
      (runSizes env bucket file_ext base save_ext folder dir
          (size :: rest)).2
        = [Op.headReq bucket
            (folder ++ (Nat.repr size ++ "_" ++ base ++ save_ext))]) ∧
    (∀ (env : Env) (bucket raw c : String),
      strStartsWith (unquote_plus raw) "source_image/" = true →
      toLowerStr (splitext (unquote_plus raw)).2 ∈ supported_exts →
      env.downloadErr = none →
      c ≠ "404" →
      env.head (handlerKey env (unquote_plus raw) 200)
          = HeadRes.clientError c →
      (lambda_handler env (LambdaEvent.s3Event bucket raw)).1
          = Outcome.returned 500
              (RetBody.plain ("HeadObject ClientError " ++ c)) ∧
      countUploads
          (lambda_handler env (LambdaEvent.s3Event bucket raw)).2 = 0) := by
  refine ⟨?_, ?_, ?_, ?_⟩
  · intro env bucket fe ba se fo d size rest hh
    constructor <;> simp only [runSizes, hh]
  · intro env bucket fe ba se fo d size rest hh hup
    simp [runSizes, hh, hup]
  · intro env bucket fe ba se fo d size rest c hc hh
    constructor <;> simp only [runSizes, hh, if_neg hc]
  · intro env bucket raw c h1 h2 hdl hc hh
    rw [lambda_handler_eligible env bucket raw h1 h2]
    simp only [handlerKey] at hh
    have habort :
        (runSizes env bucket (toLowerStr (splitext (unquote_plus raw)).2)
          (sanitize_filename (splitext (basename (unquote_plus raw))).1
            ++ "_" ++ String.mk (env.uuid_hex.data.take 8))
          (if toLowerStr (toLowerStr (splitext (unquote_plus raw)).2)
              = ".png" then ".png" else ".jpg")
          ("processed_image/"
            ++ (sanitize_filename
                  (splitext (basename (unquote_plus raw))).1
                ++ "_" ++ String.mk (env.uuid_hex.data.take 8)) ++ "/")
          env.temp_dir sizes).1
          = Except.error ("HeadObject ClientError " ++ c) ∧
        (runSizes env bucket (toLowerStr (splitext (unquote_plus raw)).2)
          (sanitize_filename (splitext (basename (unquote_plus raw))).1
            ++ "_" ++ String.mk (env.uuid_hex.data.take 8))
          (if toLowerStr (toLowerStr (splitext (unquote_plus raw)).2)
              = ".png" then ".png" else ".jpg")
          ("processed_image/"
            ++ (sanitize_filename
                  (splitext (basename (unquote_plus raw))).1
                ++ "_" ++ String.mk (env.uuid_hex.data.take 8)) ++ "/")
          env.temp_dir sizes).2
          = [Op.headReq bucket
              (("processed_image/"
                ++ (sanitize_filename
                      (splitext (basename (unquote_plus raw))).1
                    ++ "_" ++ String.mk (env.uuid_hex.data.take 8)) ++ "/")
               ++ (Nat.repr 200 ++ "_"
                  ++ (sanitize_filename
                        (splitext (basename (unquote_plus raw))).1
                      ++ "_" ++ String.mk (env.uuid_hex.data.take 8))
                  ++ (if toLowerStr
                        (toLowerStr (splitext (unquote_plus raw)).2)
                        = ".png" then ".png" else ".jpg")))] := by
      constructor <;> simp only [sizes, runSizes, hh, if_neg hc]
    simp only [processEligible, hdl, habort.1, habort.2]
    simp [countUploads, isUpload]

/-- Witness for the amended C4 in the backend whose existence check fails
with `AccessDenied`. -/
theorem c4_witness :
    (lambda_handler envHeadFail
        (LambdaEvent.s3Event "bktw" "source_image/w.jpg")).1
      = Outcome.returned 500
          (RetBody.plain ("HeadObject ClientError " ++ "AccessDenied")) ∧
    countUploads (lambda_handler envHeadFail
        (LambdaEvent.s3Event "bktw" "source_image/w.jpg")).2 = 0 :=
  c4_amended_discrimination.2.2.2 envHeadFail "bktw" "source_image/w.jpg"
    "AccessDenied" (by decide) (by decide) rfl (by decide) rfl

/-! ### Claim C7: no cleanup on the failure path -/

/-- Counterexample to C7 as stated: a fatal existence-check error after
the source was downloaded into scratch storage returns the 500 failure
with NOT ONE cleanup operation in the trace — the scratch directory and
the downloaded file are left behind. -/
theorem c7_counterexample :
    statusOf (lambda_handler envHeadFail
        (LambdaEvent.s3Event "bkt" "source_image/pic.jpg")).1 = some 500 ∧
    Op.mkdtemp "/tmp/scratch4"
      ∈ (lambda_handler envHeadFail
          (LambdaEvent.s3Event "bkt" "source_image/pic.jpg")).2 ∧
    countDownloads (lambda_handler envHeadFail
        (LambdaEvent.s3Event "bkt" "source_image/pic.jpg")).2 = 1 ∧
    (lambda_handler envHeadFail
        (LambdaEvent.s3Event "bkt" "source_image/pic.jpg")).2.filter
      isCleanup = [] := by
  decide

/-- Claim C7 amended: scratch release happens only on the success path.
The size loop never removes the scratch directory, and an invocation that
returns the 500 failure status never removes it either (only per-width
intermediate removals from earlier successful widths can appear); the
removal of the input file and of the scratch directory is reached only
after every width succeeded. -/
theorem c7_amended_no_cleanup_on_failure :
    (∀ (env : Env) (bucket file_ext base save_ext folder dir : String)
        (szs : List Nat) (d : String),
      Op.rmdirOp d ∉
        (runSizes env bucket file_ext base save_ext folder dir szs).2) ∧
    (∀ (env : Env) (bucket raw : String) (b : RetBody),
      (lambda_handler env (LambdaEvent.s3Event bucket raw)).1
          = Outcome.returned 500 b →
      ∀ d, Op.rmdirOp d
        ∉ (lambda_handler env (LambdaEvent.s3Event bucket raw)).2) := by
  constructor
  · intro env bucket fe ba se fo dir szs d
    exact runSizes_no_rmdir env bucket fe ba se fo dir szs d
  · intro env bucket raw b h500 d hmem
    by_cases h1 : strStartsWith (unquote_plus raw) "source_image/" = true
    · by_cases h2 : toLowerStr (splitext (unquote_plus raw)).2
          ∈ supported_exts
      · rw [lambda_handler_eligible env bucket raw h1 h2] at h500 hmem
        cases hdl : env.downloadErr with
        | some msg =>
          simp only [processEligible, hdl] at hmem
          simp at hmem
        | none =>
          simp only [processEligible, hdl] at h500 hmem
          cases hr : (runSizes env bucket
              (toLowerStr (splitext (unquote_plus raw)).2)
              (sanitize_filename
                  (splitext (basename (unquote_plus raw))).1
                ++ "_" ++ String.mk (env.uuid_hex.data.take 8))
              (if toLowerStr (toLowerStr (splitext (unquote_plus raw)).2)
                  = ".png" then ".png" else ".jpg")
              ("processed_image/"
                ++ (sanitize_filename
                      (splitext (basename (unquote_plus raw))).1
                    ++ "_" ++ String.mk (env.uuid_hex.data.take 8)) ++ "/")
              env.temp_dir sizes).1 with
          | ok files => simp [hr] at h500
          | error msg =>
            simp only [hr] at hmem
            rcases List.mem_cons.1 hmem with h' | hmem'
            · cases h'
            rcases List.mem_cons.1 hmem' with h' | hmem''
            · cases h'
            · exact runSizes_no_rmdir env bucket _ _ _ _ env.temp_dir
                sizes d hmem''
      · simp [lambda_handler, h1, h2] at h500
    · simp [lambda_handler, h1] at h500

/-- Witness for the amended C7: the failing invocation of the
counterexample backend indeed never removes its scratch directory. -/
theorem c7_witness :
    Op.rmdirOp "/tmp/scratch4" ∉
      (lambda_handler envHeadFail
        (LambdaEvent.s3Event "bkt7" "source_image/p7.jpg")).2 :=
  c7_amended_no_cleanup_on_failure.2 envHeadFail "bkt7" "source_image/p7.jpg"
    (RetBody.plain ("HeadObject ClientError " ++ "AccessDenied"))
    (by decide) "/tmp/scratch4"

/-! ### Claim C8: ascending width order of processedLocations -/

/-- Claim C8: whatever subset of widths the backend reports as already
processed, the `processed_files` list of a success response is the
location strings of a sublist of the configured width list, hence in
strictly ascending width order. -/
theorem c8_ascending_order (env : Env) (bucket raw : String)
    (h1 : strStartsWith (unquote_plus raw) "source_image/" = true)
    (h2 : toLowerStr (splitext (unquote_plus raw)).2 ∈ supported_exts)
    (files : List String)
    (hp : processedOf
        (lambda_handler env (LambdaEvent.s3Event bucket raw)).1
      = some files) :
    ∃ ws : List Nat, ws.Sublist sizes ∧
      List.Pairwise (fun a b => a < b) ws ∧
      files = ws.map (fun s =>
        "s3://" ++ bucket ++ "/" ++ handlerKey env (unquote_plus raw) s) := by
  rw [lambda_handler_eligible env bucket raw h1 h2] at hp
  cases hdl : env.downloadErr with
  | some msg => simp [processEligible, hdl, processedOf] at hp
  | none =>
    simp only [processEligible, hdl] at hp
    cases hr : (runSizes env bucket
        (toLowerStr (splitext (unquote_plus raw)).2)
        (sanitize_filename (splitext (basename (unquote_plus raw))).1
          ++ "_" ++ String.mk (env.uuid_hex.data.take 8))
        (if toLowerStr (toLowerStr (splitext (unquote_plus raw)).2)
            = ".png" then ".png" else ".jpg")
        ("processed_image/"
          ++ (sanitize_filename (splitext (basename (unquote_plus raw))).1
            ++ "_" ++ String.mk (env.uuid_hex.data.take 8)) ++ "/")
        env.temp_dir sizes).1 with
    | error msg => simp [hr, processedOf] at hp
    | ok files' =>
      simp only [hr, processedOf, Option.some.injEq] at hp
      obtain ⟨ws, hws, hfiles⟩ := runSizes_ok_widths env bucket
        (toLowerStr (splitext (unquote_plus raw)).2)
        (sanitize_filename (splitext (basename (unquote_plus raw))).1
          ++ "_" ++ String.mk (env.uuid_hex.data.take 8))
        (if toLowerStr (toLowerStr (splitext (unquote_plus raw)).2)
            = ".png" then ".png" else ".jpg")
        ("processed_image/"
          ++ (sanitize_filename (splitext (basename (unquote_plus raw))).1
            ++ "_" ++ String.mk (env.uuid_hex.data.take 8)) ++ "/")
        env.temp_dir sizes files' hr
      refine ⟨ws, hws, ?_, ?_⟩
      · exact List.Pairwise.sublist hws (by decide)
      · rw [← hp, hfiles]
        rfl

/-- Witness for C8 in the mixed backend where widths 300 and 1000
already exist: the response lists the 200 and 500 locations, in that
order. -/
theorem c8_witness :
    ∃ ws : List Nat, ws.Sublist sizes ∧
      List.Pairwise (fun a b => a < b) ws ∧
      ["s3://bkt/processed_image/pic_01234567/200_pic_01234567.jpg",
       "s3://bkt/processed_image/pic_01234567/500_pic_01234567.jpg"]
        = ws.map (fun s =>
            "s3://" ++ "bkt" ++ "/"
              ++ handlerKey envMixed (unquote_plus "source_image/pic.jpg") s) :=
  c8_ascending_order envMixed "bkt" "source_image/pic.jpg"
    (by decide) (by decide)
    ["s3://bkt/processed_image/pic_01234567/200_pic_01234567.jpg",
     "s3://bkt/processed_image/pic_01234567/500_pic_01234567.jpg"]
    (by decide)

end Thumb
